import Mathlib

/-!
Shallow embedding of the ONAP OOM readiness checker (`ready.py` and
`jobContainerReady.py`).

Modelling conventions:
- Kubernetes API reads are inputs: a `ClusterEnv` maps each resource name to
  the outcome of the corresponding API call, where `Except.error ()` stands
  for a raised `ApiException` (the only exception class the scripts catch).
- Python exceptions that escape a function are modelled by `Except.error`
  with a `PyErr` naming the Python exception class; a normal return is
  `Except.ok`.
- Python `None` becomes `Option.none`.  Python `x == y` on possibly-`None`
  fields is plain decidable equality on `Option` (in Python `None == None`
  is `True` and `None == 1` is `False`, which matches).
- Wall-clock instants and the timeout argument (Python floats) are idealised
  as rationals; the claims under study are structural and do not depend on
  floating-point rounding.
-/

namespace OomReadiness

/-- Python exception classes that can escape the modelled functions. -/
inductive PyErr where
  | apiException
  | typeError
  | indexError
  | requestException
deriving DecidableEq

/-- Outcome of a Kubernetes API call: `error ()` is a raised `ApiException`. -/
abbrev ApiResult (α : Type) : Type := Except Unit α

/-- One entry of a pod's `metadata.owner_references` list. -/
structure OwnerReference where
  kind : String
  name : String

/-- The `terminated` member of a container state (`reason` may be `None`). -/
structure Terminated where
  reason : Option String

/-- A container's `state` object; `terminated` is `None` unless terminated. -/
structure ContainerState where
  terminated : Option Terminated

/-- One entry of a pod's `status.container_statuses` list. -/
structure ContainerStatus where
  name : String
  state : ContainerState

/-- Pod metadata: `labels` is the label dictionary, `owner_references` can be
`None` (absent) or a possibly empty list. -/
structure PodMetadata where
  name : String
  labels : List (String × String)
  owner_references : Option (List OwnerReference)

/-- Pod status: `container_statuses` can be `None` for Pending pods. -/
structure PodStatus where
  phase : String
  container_statuses : Option (List ContainerStatus)

/-- A pod as returned by `list_namespaced_pod`. -/
structure Pod where
  metadata : PodMetadata
  status : PodStatus

/-- The `spec` part read by the replica predicates: only `replicas`. -/
structure ReplicaSpec where
  replicas : Option Int

/-- Object metadata as read by the predicates: only `generation`. -/
structure ObjectMeta where
  generation : Option Int

/-- StatefulSet status fields read by `wait_for_statefulset_complete`. -/
structure StatefulSetStatus where
  replicas : Option Int
  ready_replicas : Option Int
  observed_generation : Option Int

/-- Response of `read_namespaced_stateful_set`. -/
structure StatefulSet where
  spec : ReplicaSpec
  status : StatefulSetStatus
  metadata : ObjectMeta

/-- Deployment status fields read by `wait_for_deployment_complete`. -/
structure DeploymentStatus where
  unavailable_replicas : Option Int
  updated_replicas : Option Int
  replicas : Option Int
  ready_replicas : Option Int
  observed_generation : Option Int

/-- Response of `read_namespaced_deployment`. -/
structure Deployment where
  spec : ReplicaSpec
  status : DeploymentStatus
  metadata : ObjectMeta

/-- DaemonSet status fields read by `wait_for_daemonset_complete`. -/
structure DaemonSetStatus where
  desired_number_scheduled : Option Int
  number_ready : Option Int

/-- Response of `read_namespaced_daemon_set`. -/
structure DaemonSet where
  status : DaemonSetStatus

/-- One entry of a job status `conditions` list; only `type` is read. -/
structure JobCondition where
  type : String

/-- Job status: `succeeded` and `conditions` can each be `None`. -/
structure JobStatus where
  succeeded : Option Int
  conditions : Option (List JobCondition)

/-- Response of `read_namespaced_job_status`. -/
structure Job where
  status : JobStatus

/-- Response of `read_namespaced_replica_set_status`: only the owner
references of its metadata are read (by `read_name`). -/
structure ReplicaSet where
  owner_references : Option (List OwnerReference)

/-- The cluster as seen through the API calls the scripts make, fixed for
one poll attempt.  Each field gives the outcome of the corresponding read. -/
structure ClusterEnv where
  pods : ApiResult (List Pod)
  statefulsets : String → ApiResult StatefulSet
  deployments : String → ApiResult Deployment
  daemonsets : String → ApiResult DaemonSet
  jobs : String → ApiResult Job
  replicasets : String → ApiResult ReplicaSet

/-- Embeds `read_name` (`ready.py` 366-376, `jobContainerReady.py` 101-111):
`item.metadata.owner_references[0].name`.  Subscripting `None` raises
`TypeError`; subscripting an empty list raises `IndexError`. -/
def read_name_refs (refs : Option (List OwnerReference)) : Except PyErr String :=
  match refs with
  | none => .error .typeError
  | some [] => .error .indexError
  | some (o :: _) => .ok o.name

/-- Embeds `is_job_complete` (`ready.py` 57-83).  An `ApiException` from the
job-status read is caught and yields `False`; with `succeeded == 1` the code
evaluates `conditions[0].type`, so a `None` conditions list raises an
uncaught `TypeError` and an empty one an uncaught `IndexError`. -/
def is_job_complete (env : ClusterEnv) (job_name : String) : Except PyErr Bool :=
  match env.jobs job_name with
  | .error _ => .ok false
  | .ok r =>
    if r.status.succeeded = some 1 then
      match r.status.conditions with
      | none => .error .typeError
      | some [] => .error .indexError
      | some (c :: _) => .ok (decide (c.type = "Complete"))
    else .ok false

/-- Embeds `wait_for_statefulset_complete` (`ready.py` 86-110). -/
def wait_for_statefulset_complete (env : ClusterEnv) (statefulset_name : String) :
    Except PyErr Bool :=
  match env.statefulsets statefulset_name with
  | .error _ => .ok false
  | .ok r =>
    .ok (decide (r.status.replicas = r.spec.replicas ∧
      r.status.ready_replicas = r.spec.replicas ∧
      r.status.observed_generation = r.metadata.generation))

/-- Embeds `wait_for_deployment_complete` (`ready.py` 113-139). -/
def wait_for_deployment_complete (env : ClusterEnv) (deployment_name : String) :
    Except PyErr Bool :=
  match env.deployments deployment_name with
  | .error _ => .ok false
  | .ok r =>
    .ok (decide (r.status.unavailable_replicas = none ∧
      (r.status.updated_replicas = none ∨
        r.status.updated_replicas = r.spec.replicas) ∧
      r.status.replicas = r.spec.replicas ∧
      r.status.ready_replicas = r.spec.replicas ∧
      r.status.observed_generation = r.metadata.generation))

/-- Embeds `wait_for_daemonset_complete` (`ready.py` 142-168). -/
def wait_for_daemonset_complete (env : ClusterEnv) (daemonset_name : String) :
    Except PyErr Bool :=
  match env.daemonsets daemonset_name with
  | .error _ => .ok false
  | .ok r =>
    .ok (decide (r.status.desired_number_scheduled = r.status.number_ready))

/-- Embeds `get_deployment_name` (`ready.py` 379-392): reads the replica
set's status object (no `try`, so an `ApiException` propagates) and applies
`read_name` to it. -/
def get_deployment_name (env : ClusterEnv) (replicaset : String) : Except PyErr String :=
  match env.replicasets replicaset with
  | .error _ => .error .apiException
  | .ok r => read_name_refs r.owner_references

/-- Embeds `is_pod_ready` (`ready.py` 264-278): `read_name(pod)` first (its
exceptions propagate, there is no `try`), then dispatch on the first owner
reference's kind; an unknown kind leaves `ready = False`. -/
def is_pod_ready (env : ClusterEnv) (pod : Pod) : Except PyErr Bool :=
  match pod.metadata.owner_references with
  | none => .error .typeError
  | some [] => .error .indexError
  | some (o :: _) =>
    if o.kind = "StatefulSet" then wait_for_statefulset_complete env o.name
    else if o.kind = "ReplicaSet" then
      match get_deployment_name env o.name with
      | .error e => .error e
      | .ok deployment_name => wait_for_deployment_complete env deployment_name
    else if o.kind = "Job" then is_job_complete env o.name
    else if o.kind = "DaemonSet" then wait_for_daemonset_complete env o.name
    else .ok false

/-- Embeds Python `s.startswith(p)`: `p` is a leading substring of `s`.
Stated on the character data so that it evaluates by kernel reduction. -/
def str_startswith (s p : String) : Bool :=
  p.data.isPrefixOf s.data

/-- Embeds the `for pod in response.items` loop of
`fetch_pod_and_check_if_ready` (`ready.py` 299-301): for each pod whose name
starts with `pod_name` the code calls `is_pod_ready(pod)` but discards its
result; only an exception escaping `is_pod_ready` interrupts the loop. -/
def fpacr_go (env : ClusterEnv) (pod_name : String) : List Pod → Except PyErr Unit
  | [] => .ok ()
  | pod :: rest =>
    if str_startswith pod.metadata.name pod_name then
      match is_pod_ready env pod with
      | .error e => .error e
      | .ok _ => fpacr_go env pod_name rest
    else fpacr_go env pod_name rest

/-- Embeds `fetch_pod_and_check_if_ready` (`ready.py` 280-304).  The local
`ready` is initialised `False` and never reassigned, so every normal exit
returns `False`; `except ApiException` also returns `ready`; any other
exception propagates. -/
def fetch_pod_and_check_if_ready (env : ClusterEnv) (pod_name : String) :
    Except PyErr Bool :=
  match env.pods with
  | .error _ => .ok false
  | .ok items =>
    match fpacr_go env pod_name items with
    | .ok _ => .ok false
    | .error .apiException => .ok false
    | .error e => .error e

/-- Embeds the pod loop of `is_ready` (`ready.py` 190-207): pods whose
`container_statuses` is `None` are skipped; on the first pod holding a
container named `container_name` the code runs the same owner dispatch as
`is_pod_ready` (lines 196-207 repeat lines 266-277 verbatim) and returns. -/
def is_ready_scan (env : ClusterEnv) (container_name : String) :
    List Pod → Except PyErr Bool
  | [] => .ok false
  | item :: rest =>
    match item.status.container_statuses with
    | none => is_ready_scan env container_name rest
    | some cs =>
      if cs.any (fun c => c.name == container_name) then is_pod_ready env item
      else is_ready_scan env container_name rest

/-- Embeds `is_ready` (`ready.py` 171-210): `except ApiException` turns an
`ApiException` escaping the scan (replica-set lookup) into `ready`
(still `False`); other exceptions propagate. -/
def is_ready (env : ClusterEnv) (container_name : String) : Except PyErr Bool :=
  match env.pods with
  | .error _ => .ok false
  | .ok items =>
    match is_ready_scan env container_name items with
    | .ok b => .ok b
    | .error .apiException => .ok false
    | .error e => .error e

/-- Embeds the inner container loop of `service_mesh_job_check`
(`ready.py` 351-359): `complete` latches to `True` when a matching container
of a `Running` pod has a non-`None` terminated state; `read_name(item)` is
evaluated first and its exceptions propagate. -/
def smjc_inner (item : Pod) (container_name : String) :
    Bool → List ContainerStatus → Except PyErr Bool
  | acc, [] => .ok acc
  | acc, c :: cs =>
    if c.name == container_name && item.status.phase == "Running" then
      match read_name_refs item.metadata.owner_references with
      | .error e => .error e
      | .ok _ => smjc_inner item container_name (acc || c.state.terminated.isSome) cs
    else smjc_inner item container_name acc cs

/-- Embeds the pod loop of `service_mesh_job_check` (`ready.py` 347-359):
pods with `container_statuses` equal to `None` are skipped. -/
def smjc_scan (container_name : String) : Bool → List Pod → Except PyErr Bool
  | acc, [] => .ok acc
  | acc, item :: rest =>
    match item.status.container_statuses with
    | none => smjc_scan container_name acc rest
    | some cs =>
      match smjc_inner item container_name acc cs with
      | .error e => .error e
      | .ok acc2 => smjc_scan container_name acc2 rest

/-- Embeds `service_mesh_job_check` (`ready.py` 334-364). -/
def service_mesh_job_check (env : ClusterEnv) (container_name : String) :
    Except PyErr Bool :=
  match env.pods with
  | .error _ => .ok false
  | .ok items => smjc_scan container_name false items

/-- Embeds Python `dict.get(key, default)` on a label dictionary. -/
def dictGet (d : List (String × String)) (key dflt : String) : String :=
  match d.find? (fun p => p.fst == key) with
  | some p => p.snd
  | none => dflt

/-- Embeds the match test of `is_app_ready` (`ready.py` 326):
`item.metadata.labels.get('app', "NOKEY") == app_name`. -/
def app_label_matches (pod : Pod) (app_name : String) : Bool :=
  dictGet pod.metadata.labels "app" "NOKEY" == app_name

/-- Embeds the pod loop of `is_app_ready` (`ready.py` 325-329): on the first
pod whose app label matches, the code returns
`fetch_pod_and_check_if_ready(read_name(item))`. -/
def is_app_ready_go (env : ClusterEnv) (app_name : String) :
    List Pod → Except PyErr Bool
  | [] => .ok false
  | item :: rest =>
    if app_label_matches item app_name then
      match read_name_refs item.metadata.owner_references with
      | .error e => .error e
      | .ok name => fetch_pod_and_check_if_ready env name
    else is_app_ready_go env app_name rest

/-- Embeds `is_app_ready` (`ready.py` 306-332). -/
def is_app_ready (env : ClusterEnv) (app_name : String) : Except PyErr Bool :=
  match env.pods with
  | .error _ => .ok false
  | .ok items =>
    match is_app_ready_go env app_name items with
    | .ok b => .ok b
    | .error .apiException => .ok false
    | .error e => .error e

/-- Embeds the inner container loop of `is_container_complete`
(`jobContainerReady.py` 83-95): a matching container with `terminated`
equal to `None` is skipped by `continue`; otherwise `complete` latches to
`True` when `terminated.reason == 'Completed'`. -/
def icc_inner (item : Pod) (container_name : String) :
    Bool → List ContainerStatus → Except PyErr Bool
  | acc, [] => .ok acc
  | acc, c :: cs =>
    if c.name == container_name then
      match read_name_refs item.metadata.owner_references with
      | .error e => .error e
      | .ok _ =>
        match c.state.terminated with
        | none => icc_inner item container_name acc cs
        | some t =>
          icc_inner item container_name (acc || decide (t.reason = some "Completed")) cs
    else icc_inner item container_name acc cs

/-- Embeds the pod loop of `is_container_complete`
(`jobContainerReady.py` 78-95): pods with `container_statuses` equal to
`None` are skipped. -/
def icc_scan (container_name : String) : Bool → List Pod → Except PyErr Bool
  | acc, [] => .ok acc
  | acc, item :: rest =>
    match item.status.container_statuses with
    | none => icc_scan container_name acc rest
    | some cs =>
      match icc_inner item container_name acc cs with
      | .error e => .error e
      | .ok acc2 => icc_scan container_name acc2 rest

/-- Embeds `is_container_complete` (`jobContainerReady.py` 65-99). -/
def is_container_complete (env : ClusterEnv) (container_name : String) :
    Except PyErr Bool :=
  match env.pods with
  | .error _ => .ok false
  | .ok items => icc_scan container_name false items

/-- Environment of one invocation of the shutdown notifier in `ready.py`:
`portOpen` is the outcome of `check_socket("127.0.0.1", 15020)` and
`postResult` the outcome of `requests.post(url)` (`error ()` means the call
raised; `ok b` means it returned a response with `response.ok = b`). -/
structure NotifierEnv where
  portOpen : Bool
  postResult : Except Unit Bool

/-- Embeds `quitquitquit_post` (`ready.py` 403-418).  When the probe reports
the port closed the function returns `True` without posting.  The
`requests.post` call stands before the `try`, so an exception it raises
propagates; the `try` only wraps the exception-free `if` on `response.ok`,
whose `except` branch is dead code. -/
def quitquitquit_post (env : NotifierEnv) : Except PyErr Bool :=
  if env.portOpen = false then .ok true
  else
    match env.postResult with
    | .error _ => .error .requestException
    | .ok b => .ok b

/-- Embeds `quitquitquit_post` of `jobContainerReady.py` (113-125): no
reachability probe at all; `requests.post` is issued unconditionally and
stands before the `try`, so an exception it raises propagates. -/
def jcr_quitquitquit_post (postResult : Except Unit Bool) : Except PyErr Bool :=
  match postResult with
  | .error _ => .error .requestException
  | .ok b => .ok b

/-- Embeds the deadline computation of the batch loops
(`check_job_readiness` 540-541, `check_container_readiness` 597-598, and
the four analogous loops): for each query the code runs
`timeout = time.time() + timeout * 60`, overwriting the `timeout` parameter
itself, and uses the result as that query's deadline.  Given the
`time.time()` value at each query's start and the caller-supplied timeout in
minutes, this returns the deadline each query's poll loop compares against. -/
def check_readiness_deadlines : List Rat → Rat → List Rat
  | [], _ => []
  | now :: rest, timeout =>
    (now + timeout * 60) :: check_readiness_deadlines rest (now + timeout * 60)

/-- Outcome of one query's poll loop. -/
inductive PollOutcome where
  | success
  | timedOut
  | raised (e : PyErr)
deriving DecidableEq

/-- Embeds the `while True` loop of `check_job_readiness`
(`ready.py` 542-556).  Attempt `i` reads the cluster as `envs i`; `times i`
is the `time.time()` value of attempt `i`'s deadline comparison.  The second
component of the result counts the sleeps executed before the loop ended
(one per failed attempt that did not time out); `fuel` bounds the number of
attempts so the recursion is structural. -/
def job_poll_loop (envs : Nat → ClusterEnv) (job_name : String) (deadline : Rat)
    (times : Nat → Rat) : Nat → Nat → Option (PollOutcome × Nat)
  | 0, _ => none
  | fuel + 1, i =>
    match is_job_complete (envs i) job_name with
    | .error e => some (.raised e, i)
    | .ok true => some (.success, i)
    | .ok false =>
      if times i > deadline then some (.timedOut, i)
      else job_poll_loop envs job_name deadline times fuel (i + 1)

/-- A cluster in which every API read raises `ApiException` and the pod list
is empty. -/
def emptyEnv : ClusterEnv where
  pods := .ok []
  statefulsets := fun _ => .error ()
  deployments := fun _ => .error ()
  daemonsets := fun _ => .error ()
  jobs := fun _ => .error ()
  replicasets := fun _ => .error ()

/-- A StatefulSet whose status satisfies the readiness predicate. -/
def stsReady : StatefulSet where
  spec := ⟨some 3⟩
  status := ⟨some 3, some 3, some 2⟩
  metadata := ⟨some 2⟩

/-- A pod named `worker-7f8c9` owned by the StatefulSet `web`. -/
def podWorker : Pod where
  metadata := ⟨"worker-7f8c9", [], some [⟨"StatefulSet", "web"⟩]⟩
  status := ⟨"Running", some []⟩

/-- A cluster holding exactly `podWorker`, whose owning StatefulSet `web` is
ready. -/
def envC1 : ClusterEnv where
  pods := .ok [podWorker]
  statefulsets := fun n => if n = "web" then .ok stsReady else .error ()
  deployments := fun _ => .error ()
  daemonsets := fun _ => .error ()
  jobs := fun _ => .error ()
  replicasets := fun _ => .error ()

/-- A job status reporting `succeeded = 1` with a `None` conditions list. -/
def jobNullConditions : Job where
  status := ⟨some 1, none⟩

/-- A cluster whose job-status read returns `jobNullConditions`. -/
def envC3 : ClusterEnv where
  pods := .ok []
  statefulsets := fun _ => .error ()
  deployments := fun _ => .error ()
  daemonsets := fun _ => .error ()
  jobs := fun _ => .ok jobNullConditions
  replicasets := fun _ => .error ()

/-- C1: the claim says the per-pod-name readiness check returns true exactly
when a listed pod whose name starts with the query is ready.  In the code the
result of `is_pod_ready(pod)` at line 301 of `ready.py` is discarded and the
local `ready` is never set, so `fetch_pod_and_check_if_ready` returns `False`
on every normal exit — even when a matching ready pod exists (here the pod
`worker-7f8c9`, owned by a ready StatefulSet, matched by query `worker`),
contradicting the function's own docstring. -/
theorem C1_pod_query_always_false :
    (∀ (env : ClusterEnv) (pod_name : String) (b : Bool),
        fetch_pod_and_check_if_ready env pod_name = Except.ok b → b = false)
    ∧ fetch_pod_and_check_if_ready envC1 "worker" = Except.ok false
    ∧ is_pod_ready envC1 podWorker = Except.ok true
    ∧ str_startswith "worker-7f8c9" "worker" = true
    ∧ str_startswith "other-worker-1" "worker" = false := by
  refine ⟨?_, by rfl, by rfl, by decide, by decide⟩
  intro env pod_name b hb
  unfold fetch_pod_and_check_if_ready at hb
  split at hb
  · exact (Except.ok.inj hb).symm
  · split at hb
    · exact (Except.ok.inj hb).symm
    · exact (Except.ok.inj hb).symm
    · exact Except.noConfusion hb

/-- C1 witness: the universally quantified part of `C1_pod_query_always_false`
applied at a concrete cluster. -/
theorem C1_pod_query_always_false_witness : false = false :=
  C1_pod_query_always_false.1 emptyEnv "worker" false rfl

/-- C2: the claim says each query's deadline is its start time plus the
original timeout in minutes times 60.  The code overwrites the `timeout`
parameter with the computed deadline (`timeout = time.time() + timeout * 60`),
so with a batch of two queries both starting at time 0 and a 1-minute
timeout, the second query's deadline is `0 + 60 * 60 = 3600`, not the
`0 + 1 * 60 = 60` the claim requires. -/
theorem C2_second_deadline_uses_mutated_timeout :
    check_readiness_deadlines [0, 0] 1 = [60, 3600] ∧ (0 : Rat) + 1 * 60 = 60 := by
  constructor
  · norm_num [check_readiness_deadlines]
  · norm_num

/-- C3: the claim says every readiness check degrades any lookup failure to a
false verdict and never raises, naming the shape succeeded = 1 with a null
conditions list.  On exactly that shape `is_job_complete` evaluates
`response.status.conditions[0]`, raising a `TypeError` that the
`except ApiException` clause does not catch, so the exception propagates to
the caller. -/
theorem C3_null_conditions_raises_typeerror :
    is_job_complete envC3 "migrate" = Except.error PyErr.typeError := rfl

/-- A pod whose `owner_references` list is present but empty. -/
def podEmptyOwners : Pod where
  metadata := ⟨"orphan-1", [], some []⟩
  status := ⟨"Running", some []⟩

/-- A pod whose `owner_references` field is `None`. -/
def podAbsentOwners : Pod where
  metadata := ⟨"orphan-2", [], none⟩
  status := ⟨"Running", some []⟩

/-- C4 counterexample: the claim says an instance with an empty
owner-reference list yields a not-ready (false) verdict rather than
crashing, but `is_pod_ready` evaluates `owner_references[0]` unguarded, so
on `podEmptyOwners` it raises an `IndexError` instead of returning a
verdict. -/
theorem C4_empty_owner_refs_raise :
    is_pod_ready emptyEnv podEmptyOwners = Except.error PyErr.indexError := rfl

/-- C4 amended: owner resolution reads only the first owner reference when
one exists (the verdict is unchanged when the remaining references are
dropped), but an instance whose owner-reference list is absent raises a
`TypeError` and one whose list is empty raises an `IndexError`; neither case
produces a false verdict. -/
theorem C4_amended_first_owner_only (env : ClusterEnv) (pod : Pod) :
    (pod.metadata.owner_references = none →
      is_pod_ready env pod = Except.error PyErr.typeError)
    ∧ (pod.metadata.owner_references = some [] →
      is_pod_ready env pod = Except.error PyErr.indexError)
    ∧ (∀ (o : OwnerReference) (rest : List OwnerReference) (n : String)
        (labels : List (String × String)) (st : PodStatus),
        is_pod_ready env ⟨⟨n, labels, some (o :: rest)⟩, st⟩
          = is_pod_ready env ⟨⟨n, labels, some [o]⟩, st⟩) := by
  refine ⟨?_, ?_, ?_⟩
  · intro h
    simp [is_pod_ready, h]
  · intro h
    simp [is_pod_ready, h]
  · intro o rest n labels st
    rfl

/-- C4 witness: `C4_amended_first_owner_only` applied to a concrete pod with
absent owner references. -/
theorem C4_amended_first_owner_only_witness :
    is_pod_ready emptyEnv podAbsentOwners = Except.error PyErr.typeError :=
  (C4_amended_first_owner_only emptyEnv podAbsentOwners).1 rfl

/-- C5: the claim says any exception raised during the shutdown POST is
caught and logged.  In the code `requests.post` stands before the `try`
block, so when the port is reachable and the POST raises, the exception
propagates to the caller; when the POST returns, the function does return
exactly the truth of `response.ok`. -/
theorem C5_post_exception_propagates :
    quitquitquit_post ⟨true, Except.error ()⟩ = Except.error PyErr.requestException
    ∧ (∀ b : Bool, quitquitquit_post ⟨true, Except.ok b⟩ = Except.ok b) :=
  ⟨rfl, fun _ => rfl⟩

/-- C6 counterexample: the claim says the notifier probes port 15020 and,
whenever the probe reports it unreachable, returns true without posting, so
invoking it with no sidecar present never fails the run.  The notifier of
`jobContainerReady.py` (one of the claim's two subjects) performs no probe
at all: with no sidecar listening the unconditional POST raises and the
exception escapes. -/
theorem C6_jcr_notifier_has_no_probe :
    jcr_quitquitquit_post (Except.error ()) = Except.error PyErr.requestException := rfl

/-- C6 amended: the `ready.py` notifier probes the port and returns true
without issuing the POST whenever the probe reports the port closed
(whatever the POST would have done), and a repeated invocation then behaves
the same; the `jobContainerReady.py` notifier has no probe and behaves like
the `ready.py` notifier with the port unconditionally open. -/
theorem C6_amended_probe_short_circuits :
    (∀ pr : Except Unit Bool, quitquitquit_post ⟨false, pr⟩ = Except.ok true)
    ∧ (∀ pr : Except Unit Bool, jcr_quitquitquit_post pr = quitquitquit_post ⟨true, pr⟩) := by
  constructor
  · intro pr
    rfl
  · intro pr
    cases pr <;> rfl

/-- A Deployment whose status satisfies all conjuncts of the readiness
predicate. -/
def depReady : Deployment where
  spec := ⟨some 3⟩
  status := ⟨none, some 3, some 3, some 3, some 5⟩
  metadata := ⟨some 5⟩

/-- A cluster whose deployment read returns `depReady`. -/
def envC7 : ClusterEnv where
  pods := .ok []
  statefulsets := fun _ => .error ()
  deployments := fun _ => .ok depReady
  daemonsets := fun _ => .error ()
  jobs := fun _ => .error ()
  replicasets := fun _ => .error ()

/-- A job status reporting `succeeded = 1` with first condition of type
`Complete`. -/
def jobComplete : Job where
  status := ⟨some 1, some [⟨"Complete"⟩]⟩

/-- A cluster whose job-status read returns `jobComplete`. -/
def envC8 : ClusterEnv where
  pods := .ok []
  statefulsets := fun _ => .error ()
  deployments := fun _ => .error ()
  daemonsets := fun _ => .error ()
  jobs := fun _ => .ok jobComplete
  replicasets := fun _ => .error ()

/-- A pod with labels but no `app` key, and a pod list entry for C10 with
`container_statuses` equal to `None`. -/
def podNoAppLabel : Pod where
  metadata := ⟨"helper-1", [("release", "r1")], some [⟨"Job", "helper"⟩]⟩
  status := ⟨"Running", some []⟩

/-- A Pending pod whose `container_statuses` is `None`. -/
def podNoStatuses : Pod where
  metadata := ⟨"pending-1", [], some [⟨"Job", "helper"⟩]⟩
  status := ⟨"Pending", none⟩

/-- C7: on a successfully fetched deployment status, the readiness check
returns true exactly when no unavailable replicas are reported, the
updated-replica count is unset or equals the desired count, the replica and
ready-replica counts equal the desired count, and the observed generation
equals the metadata generation; it returns false exactly when one of these
conjuncts fails. -/
theorem C7_deployment_ready_iff (env : ClusterEnv) (n : String) (r : Deployment)
    (h : env.deployments n = Except.ok r) :
    (wait_for_deployment_complete env n = Except.ok true ↔
      (r.status.unavailable_replicas = none ∧
        (r.status.updated_replicas = none ∨ r.status.updated_replicas = r.spec.replicas) ∧
        r.status.replicas = r.spec.replicas ∧
        r.status.ready_replicas = r.spec.replicas ∧
        r.status.observed_generation = r.metadata.generation))
    ∧ (wait_for_deployment_complete env n = Except.ok false ↔
      ¬ (r.status.unavailable_replicas = none ∧
        (r.status.updated_replicas = none ∨ r.status.updated_replicas = r.spec.replicas) ∧
        r.status.replicas = r.spec.replicas ∧
        r.status.ready_replicas = r.spec.replicas ∧
        r.status.observed_generation = r.metadata.generation)) := by
  unfold wait_for_deployment_complete
  rw [h]
  constructor
  · simp
  · simp

/-- C7 witness: `C7_deployment_ready_iff` at a ready concrete deployment. -/
theorem C7_deployment_ready_iff_witness :
    wait_for_deployment_complete envC7 "app" = Except.ok true :=
  ((C7_deployment_ready_iff envC7 "app" depReady rfl).1).mpr (by decide)

/-- C8: on a successfully fetched job status, the job readiness check
returns true exactly when the succeeded count equals 1 and the first
condition of the conditions list has type `Complete`; and whenever the check
returns true, the job poll loop returns success on the very first attempt
with zero sleeps. -/
theorem C8_job_ready_iff_first_poll (env : ClusterEnv) (jn : String) (r : Job)
    (h : env.jobs jn = Except.ok r) :
    (is_job_complete env jn = Except.ok true ↔
      (r.status.succeeded = some 1 ∧
        ∃ (c : JobCondition) (cs : List JobCondition),
          r.status.conditions = some (c :: cs) ∧ c.type = "Complete"))
    ∧ (∀ (envs : Nat → ClusterEnv) (deadline : Rat) (times : Nat → Rat) (fuel : Nat),
        envs 0 = env → is_job_complete env jn = Except.ok true →
        job_poll_loop envs jn deadline times (fuel + 1) 0
          = some (PollOutcome.success, 0)) := by
  constructor
  · unfold is_job_complete
    rw [h]
    dsimp only
    by_cases hs : r.status.succeeded = some 1
    · rw [if_pos hs]
      cases hc : r.status.conditions with
      | none => simp [hs, hc]
      | some l =>
        cases l with
        | nil => simp [hs, hc]
        | cons c cs => simp [hs, hc]
    · rw [if_neg hs]
      simp [hs]
  · intro envs deadline times fuel h0 hok
    simp [job_poll_loop, h0, hok]

/-- C8 witness: `C8_job_ready_iff_first_poll` at a concrete complete job,
with any deadline, clock and remaining fuel. -/
theorem C8_job_ready_iff_first_poll_witness :
    job_poll_loop (fun _ => envC8) "migrate" 300 (fun _ => 0) (4 + 1) 0
      = some (PollOutcome.success, 0) :=
  (C8_job_ready_iff_first_poll envC8 "migrate" jobComplete rfl).2
    (fun _ => envC8) 300 (fun _ => 0) 4 rfl rfl

/-- C9 counterexample: the claim says instances with an absent `app` label
never match any query.  The sentinel assigned to an absent label is the
string `NOKEY`, so a pod without an `app` key matches the query value
`NOKEY` itself. -/
theorem C9_absent_label_matches_sentinel :
    app_label_matches podNoAppLabel "NOKEY" = true
    ∧ podNoAppLabel.metadata.labels.find? (fun p => p.fst == "app") = none :=
  ⟨rfl, rfl⟩

/-- C9 amended: an instance matches exactly when its `app` label value —
with the sentinel `NOKEY` substituted when the label is absent — equals the
query value; hence an instance with an absent `app` label matches the query
`NOKEY` and no other query. -/
theorem C9_amended_label_match (pod : Pod) (q : String) :
    (app_label_matches pod q = true ↔ dictGet pod.metadata.labels "app" "NOKEY" = q)
    ∧ (pod.metadata.labels.find? (fun p => p.fst == "app") = none →
      (app_label_matches pod q = true ↔ q = "NOKEY")) := by
  constructor
  · simp [app_label_matches]
  · intro h
    unfold app_label_matches dictGet
    rw [h]
    dsimp only
    constructor
    · intro hb
      exact (eq_of_beq hb).symm
    · intro hq
      subst hq
      exact beq_self_eq_true "NOKEY"

/-- C9 witness: `C9_amended_label_match` at a concrete pod with no `app`
label and a non-sentinel query. -/
theorem C9_amended_label_match_witness :
    app_label_matches podNoAppLabel "worker" = true ↔ "worker" = "NOKEY" :=
  (C9_amended_label_match podNoAppLabel "worker").2 rfl

/-- C10: in each of the three per-container scans — the container readiness
scan of `is_ready`, the mesh-job scan of `service_mesh_job_check`, and the
container-completion scan of `is_container_complete` — a pod whose
`container_statuses` is `None` is skipped: prepending it to the pod list
leaves the verdict unchanged and causes no error. -/
theorem C10_null_container_statuses_skipped (env : ClusterEnv) (cn : String)
    (p : Pod) (h : p.status.container_statuses = none) (rest : List Pod) (acc : Bool) :
    is_ready_scan env cn (p :: rest) = is_ready_scan env cn rest
    ∧ smjc_scan cn acc (p :: rest) = smjc_scan cn acc rest
    ∧ icc_scan cn acc (p :: rest) = icc_scan cn acc rest := by
  refine ⟨?_, ?_, ?_⟩
  · simp [is_ready_scan, h]
  · simp [smjc_scan, h]
  · simp [icc_scan, h]

/-- C10 witness: `C10_null_container_statuses_skipped` at a concrete Pending
pod within a concrete pod list. -/
theorem C10_null_container_statuses_skipped_witness :
    is_ready_scan emptyEnv "side" (podNoStatuses :: [podWorker])
      = is_ready_scan emptyEnv "side" [podWorker] :=
  (C10_null_container_statuses_skipped emptyEnv "side" podNoStatuses rfl
    [podWorker] false).1

end OomReadiness
